import Mathlib

/-!
Shallow embedding of the NWS directives chatbot core, covering
`streamlit_app.py` (scope filter, chat-engine construction and its call
site, citation building, answer assembly, conversation log) and
`prepare_directives.py` (PDF acquisition).  Python string operations are
modelled as total functions on Lean strings; external effects (Streamlit
widgets, HTTP requests) are made explicit as data and oracle functions.
-/

/-- Python `str.strip()`: whitespace removed from both ends. -/
def pyStrip (s : String) : String :=
  ⟨((s.data.dropWhile Char.isWhitespace).reverse.dropWhile Char.isWhitespace).reverse⟩

/-- Python slicing `s[:n]`. -/
def pyTake (s : String) (n : Nat) : String := ⟨s.data.take n⟩

/-- Python slicing `s[n:]`; composed with `pyTake` it gives `s[n:m]`. -/
def pyDrop (s : String) (n : Nat) : String := ⟨s.data.drop n⟩

/-- Python `s.startswith(pre)`. -/
def pyStartsWith (s pre : String) : Bool := pre.data.isPrefixOf s.data

/-- Python `s.isdigit()`: false on the empty string, true when every
character is a digit. -/
def pyIsDigit (s : String) : Bool := !s.data.isEmpty && s.data.all Char.isDigit

/-- Python `len(s)` in characters. -/
def pyLen (s : String) : Nat := s.data.length

/-- Helper for substring containment: does `pat` occur inside the haystack? -/
def containsSub (pat : List Char) : List Char → Bool
  | [] => pat.isEmpty
  | c :: t => pat.isPrefixOf (c :: t) || containsSub pat t

/-- Python `pat in s` on strings (substring containment). -/
def strContains (s pat : String) : Bool := containsSub pat.data s.data

/-- Python `os.path.basename`: the part of the path after the last slash. -/
def basename (p : String) : String :=
  ⟨(p.data.reverse.takeWhile (fun c => c ≠ '/')).reverse⟩

/-- Python `sep.join(xs)`. -/
def pyJoin (sep : String) : List String → String
  | [] => ""
  | [x] => x
  | x :: y :: xs => x ++ sep ++ pyJoin sep (y :: xs)

/-- A loaded directive document: an opaque identity plus the `region`
entry of its metadata dict (`none` when the key is absent), mirroring the
objects returned by the directory reader in `streamlit_app.py`. -/
structure Doc where
  id : String
  region : Option String
deriving DecidableEq

/-- Python `doc.metadata.get("region", "")`. -/
def metaRegion (d : Doc) : String := d.region.getD ""

/-- `get_filtered_documents` (streamlit_app.py lines 80-88): national
directives (region metadata containing "National") followed by regional
directives (region metadata containing the selected region). -/
def get_filtered_documents (all_docs : List Doc) (region : String) : List Doc :=
  let national_docs := all_docs.filter (fun d => strContains (metaRegion d) "National")
  let regional_docs := all_docs.filter (fun d => strContains (metaRegion d) region)
  national_docs ++ regional_docs

/-- The `st.warning` on line 86 fires exactly when the regional subset is
empty; the function still returns (the warning is non-fatal). -/
def low_coverage_warning (all_docs : List Doc) (region : String) : Bool :=
  (all_docs.filter (fun d => strContains (metaRegion d) region)).isEmpty

/-- Outcome of attempting to build the chat engine: a built engine
(filtered docs plus the region/office that parameterize the system
prompt), the `st.error`/`st.stop` branch of lines 95-97, or a Python
`TypeError` raised at the call itself. -/
inductive EngineResult where
  | ok (filtered_docs : List Doc) (region office : String)
  | officeStop
  | typeError
deriving DecidableEq

/-- Body of `build_chat_engine` (lines 90-137): filter docs, then stop
with an error if `office` is falsy (the empty string models a falsy
office value). -/
def build_chat_engine (all_docs : List Doc) (region office : String) : EngineResult :=
  let filtered_docs := get_filtered_documents all_docs region
  if office = "" then EngineResult.officeStop
  else EngineResult.ok filtered_docs region office

/-- Python call semantics for `build_chat_engine`: the def has two
required positional parameters and no defaults, so any argument list that
is not exactly two values raises `TypeError` before the body runs. -/
def invoke_build_chat_engine (all_docs : List Doc) (args : List String) : EngineResult :=
  match args with
  | [region, office] => build_chat_engine all_docs region office
  | _ => EngineResult.typeError

/-- The only call site (line 141):
`build_chat_engine(st.session_state.user_region)` passes a single
argument. -/
def rebuild_chat_engine (all_docs : List Doc) (user_region : String) : EngineResult :=
  invoke_build_chat_engine all_docs [user_region]

/-- A retrieved source node: its text and the `file_name` metadata entry
(`none` when absent), as consumed by the citation loop. -/
structure SourceNode where
  text : String
  file_name : Option String
deriving DecidableEq

/-- The boilerplate marker tested on line 174. -/
def boilerplate : String := "This page intentionally left blank"

/-- Line 184: `file_name[2:5] if file_name.startswith("pd") and
file_name[2:5].isdigit() else None`. -/
def series_match (file_name : String) : Option String :=
  if pyStartsWith file_name "pd" && pyIsDigit (pyTake (pyDrop file_name 2) 3) then
    some (pyTake (pyDrop file_name 2) 3)
  else none

/-- Lines 181-186: `source_url` starts as "Unknown Source" and is
replaced by the derived directives URL only when the file name is present
and its series code parses. -/
def source_url_of (node : SourceNode) : String :=
  match node.file_name with
  | none => "Unknown Source"
  | some raw_name =>
    let file_name := basename raw_name
    match series_match file_name with
    | some series =>
        "https://www.weather.gov/media/directives/" ++ series ++ "_pdfs/" ++ file_name
    | none => "Unknown Source"

/-- Line 177: `source_text[:200].strip()` applied to the stripped node
text. -/
def excerpt_of (node : SourceNode) : String := pyStrip (pyTake (pyStrip node.text) 200)

/-- Line 189: the markdown bullet `- [<excerpt>...](<source_url>)`. -/
def citation_of (node : SourceNode) : String :=
  "- [" ++ excerpt_of node ++ "...](" ++ source_url_of node ++ ")"

/-- The two text filters of lines 173-179, bundled: non-empty stripped
text, no boilerplate marker, and a trimmed excerpt of at least 20
characters. -/
def text_accepted (node : SourceNode) : Bool :=
  let source_text := pyStrip node.text
  !(decide (source_text = "" ∨ strContains source_text boilerplate = true))
    && !(decide (pyLen (pyStrip (pyTake source_text 200)) < 20))

/-- The citation loop body (lines 172-190): skip blank/boilerplate
passages, skip short excerpts, deduplicate on `source_url` via the
`seen_sources` set (modelled as a list), and otherwise append the
citation bullet. -/
def cite_loop : List SourceNode → List String → List String → List String
  | [], _seen, acc => acc
  | node :: rest, seen, acc =>
    let source_text := pyStrip node.text
    if source_text = "" ∨ strContains source_text boilerplate = true then
      cite_loop rest seen acc
    else
      let source_excerpt := pyStrip (pyTake source_text 200)
      if pyLen source_excerpt < 20 then
        cite_loop rest seen acc
      else
        let source_url := source_url_of node
        if source_url ∈ seen then
          cite_loop rest seen acc
        else
          cite_loop rest (source_url :: seen) (acc ++ [citation_of node])

/-- Lines 168-190 as a whole: the loop iterates over
`response_stream.source_nodes[:max_sources]`, i.e. the raw passage list
is truncated to `max_sources` elements before any filtering. -/
def build_citations (source_nodes : List SourceNode) (max_sources : Nat) : List String :=
  cite_loop (source_nodes.take max_sources) [] []

/-- The fixed fallback message of line 165. -/
def fallback_message : String :=
  "⚠️ Sorry, I couldn't find relevant information. Try rewording your question."

/-- Line 161: the joined response stream is stripped. -/
def response_text_of (response_gen : String) : String := pyStrip response_gen

/-- Lines 164-165: substitute the fallback when the stripped response is
empty. -/
def handle_empty_response (response_text : String) : String :=
  if response_text = "" then fallback_message else response_text

/-- Lines 192-193: append the sources block only when some citation was
accepted. -/
def append_sources (response_text : String) (sources : List String) : String :=
  if sources.isEmpty then response_text
  else response_text ++ "\n\n**Sources:**\n" ++ pyJoin "\n" sources

/-- The full response assembly of lines 161-193, from the joined stream
text and the accepted citation bullets. -/
def assemble_response (response_gen : String) (sources : List String) : String :=
  append_sources (handle_empty_response (response_text_of response_gen)) sources

/-- One `{role, content}` entry of `st.session_state.messages`. -/
structure Message where
  role : String
  content : String
deriving DecidableEq

/-- Lines 19-22: the conversation log starts with one assistant greeting. -/
def initial_messages : List Message :=
  [⟨"assistant", "Ask me a question about the NWS Directives!"⟩]

/-- Line 150: the submitted prompt is appended as a user message. -/
def append_user_message (messages : List Message) (prompt : String) : List Message :=
  messages ++ [⟨"user", prompt⟩]

/-- Lines 158-196: an assistant message is appended only when the last
stored message is not already from the assistant (`messages[-1]`; the
list is initialized non-empty, so the default value of `getLastD` is
never consulted in a reachable state). -/
def append_assistant_message (messages : List Message) (response_text : String) : List Message :=
  if (messages.getLastD ⟨"assistant", ""⟩).role ≠ "assistant" then
    messages ++ [⟨"assistant", response_text⟩]
  else messages

/-- One completed user turn: the prompt is appended, then the generated
assistant response is appended. -/
def complete_turn (messages : List Message) (prompt response_text : String) : List Message :=
  append_assistant_message (append_user_message messages prompt) response_text

/-- Oracle for the network effects of `prepare_directives.py`: the result
of fetching and parsing the listing page (the `.pdf` hrefs found, or a
raised error), `requests.compat.urljoin`, the Content-Type reported by
`requests.head` (or a raised error), and the outcome of downloading one
PDF (success, or a raised error from `requests.get` /
`raise_for_status`). -/
structure Web where
  listing : Except String (List String)
  urljoin : String → String → String
  head_content_type : String → Except String String
  download : String → Except String Unit

/-- Observable outcome of `download_pdfs`: files written (by basename),
links skipped as non-PDF, and the exception message caught by the
function-level `except` clause, if any. -/
structure AcqResult where
  downloaded : List String
  skipped : List String
  error : Option String
deriving DecidableEq

/-- Lines 34-36: relative links are resolved against the listing URL. -/
def resolve_pdf_url (w : Web) (base_url href : String) : String :=
  if pyStartsWith href "http" then href else w.urljoin base_url href

/-- The download loop of lines 31-54.  Any exception raised inside the
loop (a failed HEAD request or a failed download) propagates to the
single `except` handler wrapping the whole function body, so it ends the
loop: the remaining links are not processed.  A Content-Type mismatch is
only skipped. -/
def acq_loop (w : Web) (base_url : String) : List String → AcqResult → AcqResult
  | [], r => r
  | href :: rest, r =>
    let pdf_url := resolve_pdf_url w base_url href
    match w.head_content_type pdf_url with
    | Except.error e => { r with error := some e }
    | Except.ok ct =>
      if ct ≠ "application/pdf" then
        acq_loop w base_url rest { r with skipped := r.skipped ++ [pdf_url] }
      else
        match w.download pdf_url with
        | Except.error e => { r with error := some e }
        | Except.ok _ =>
          acq_loop w base_url rest { r with downloaded := r.downloaded ++ [basename pdf_url] }

/-- `download_pdfs` (prepare_directives.py lines 11-58): a listing
failure is caught with nothing downloaded; an empty link list returns
early; otherwise the download loop runs. -/
def download_pdfs (w : Web) (series_str : String) : AcqResult :=
  let base_url := "https://www.weather.gov/directives/" ++ series_str
  match w.listing with
  | Except.error e => ⟨[], [], some e⟩
  | Except.ok pdf_links =>
    if pdf_links.isEmpty then ⟨[], [], none⟩
    else acq_loop w base_url pdf_links ⟨[], [], none⟩

/-- Concrete retrieval passages used to exercise the citation loop:
five ranked passages where passages 2 and 4 share a source file and
passage 3 is blank-page boilerplate. -/
def cex_n1 : SourceNode :=
  ⟨"All weather service offices shall maintain operations around the clock.",
   some "pd00101001curr.pdf"⟩

/-- Second ranked passage, sharing its source file with the fourth. -/
def cex_n2 : SourceNode :=
  ⟨"Directives in this series describe program requirements in detail.",
   some "pd02001003curr.pdf"⟩

/-- Third ranked passage: blank-page boilerplate. -/
def cex_n3 : SourceNode :=
  ⟨"This page intentionally left blank", some "pd03001001curr.pdf"⟩

/-- Fourth ranked passage: same source file as the second. -/
def cex_n4 : SourceNode :=
  ⟨"Regional supplementals shall follow the national directive numbering.",
   some "pd02001003curr.pdf"⟩

/-- Fifth ranked passage, from a fresh source file. -/
def cex_n5 : SourceNode :=
  ⟨"Offices shall document deviations from national policy in writing.",
   some "pd10001001curr.pdf"⟩

/-- A passage whose file name does not follow the `pd<series>` naming
convention, so no source URL can be derived for it. -/
def cex_m1 : SourceNode :=
  ⟨"General administrative procedures apply to all offices equally.",
   some "admin_manual.pdf"⟩

/-- A second passage with an underivable source URL, distinct from
`cex_m1` in text and file name. -/
def cex_m2 : SourceNode :=
  ⟨"Budget execution guidance is updated annually by headquarters.",
   some "budget_guide.pdf"⟩

/-- A network oracle where the listing succeeds with two PDF links, both
links report a PDF content type, and the first download fails. -/
def acq_web_failing : Web where
  listing := Except.ok ["a.pdf", "b.pdf"]
  urljoin := fun base href => base ++ "/" ++ href
  head_content_type := fun _ => Except.ok "application/pdf"
  download := fun u =>
    if u = "https://www.weather.gov/directives/010/a.pdf" then Except.error "HTTP 500"
    else Except.ok ()

/-- A directive with national scope. -/
def demo_national : Doc := ⟨"pd00101001curr.pdf", some "National"⟩

/-- A directive scoped to the Eastern Region. -/
def demo_eastern : Doc := ⟨"pd00101001east.pdf", some "Eastern Region"⟩

/-- A directive whose region metadata matches both the national test and
a requested region of "Southern Region". -/
def demo_overlap : Doc :=
  ⟨"pd01005004curr.pdf", some "National Weather Service Southern Region Supplemental"⟩

/-! Helper lemmas about the citation loop, list filtering, and strings. -/

theorem cite_loop_nil (seen acc : List String) : cite_loop [] seen acc = acc := rfl

theorem cite_loop_skip_text {node : SourceNode} (rest : List SourceNode)
    (seen acc : List String)
    (h : pyStrip node.text = "" ∨ strContains (pyStrip node.text) boilerplate = true) :
    cite_loop (node :: rest) seen acc = cite_loop rest seen acc := by
  simp only [cite_loop]
  rw [if_pos h]

theorem cite_loop_accept {node : SourceNode} {seen : List String}
    (rest : List SourceNode) (acc : List String)
    (h1 : text_accepted node = true) (h2 : source_url_of node ∉ seen) :
    cite_loop (node :: rest) seen acc =
      cite_loop rest (source_url_of node :: seen) (acc ++ [citation_of node]) := by
  simp only [text_accepted, Bool.and_eq_true, Bool.not_eq_true', decide_eq_false_iff_not] at h1
  simp only [cite_loop]
  rw [if_neg h1.1, if_neg h1.2, if_neg h2]

theorem mem_acc_cite_loop (l : List SourceNode) (seen acc : List String) (c : String)
    (h : c ∈ acc) : c ∈ cite_loop l seen acc := by
  induction l generalizing seen acc with
  | nil => exact h
  | cons node rest ih =>
    simp only [cite_loop]
    split
    · exact ih seen acc h
    · split
      · exact ih seen acc h
      · split
        · exact ih seen acc h
        · exact ih _ _ (List.mem_append_left _ h)

theorem filter_idem {α : Type} (p : α → Bool) (l : List α) :
    (l.filter p).filter p = l.filter p := by
  induction l with
  | nil => rfl
  | cons a t ih =>
    by_cases hp : p a = true <;> simp [List.filter_cons, hp, ih]

theorem filter_of_disjoint {α : Type} (p q : α → Bool) (l : List α)
    (h : ∀ a ∈ l, ¬(p a = true ∧ q a = true)) : (l.filter q).filter p = [] := by
  induction l with
  | nil => rfl
  | cons a t ih =>
    have ht : ∀ b ∈ t, ¬(p b = true ∧ q b = true) := fun b hb => h b (List.mem_cons_of_mem a hb)
    by_cases hq : q a = true
    · have hp : ¬p a = true := fun hpa => h a (List.mem_cons_self a t) ⟨hpa, hq⟩
      simp [List.filter_cons, hq, hp, ih ht]
    · simp [List.filter_cons, hq, ih ht]

theorem getLastD_concat {α : Type} (l : List α) (a d : α) : (l ++ [a]).getLastD d = a := by
  simp

theorem string_append_ne_left (a b : String) (h : a ≠ "") : a ++ b ≠ "" := by
  intro hab
  apply h
  have hd : a.data ++ b.data = [] := congrArg String.data hab
  have ha : a.data = [] := (List.append_eq_nil.mp hd).1
  cases a with
  | mk da =>
    simp only at ha
    rw [ha]

/-! Claim theorems. -/

/-- Claim C1: `build_chat_engine` is declared with two required
parameters (region, office), yet its only call site passes just the
region, so for every session the rebuild raises a `TypeError` before the
"Office selection is required" error branch can execute — that branch is
unreachable from the call site. -/
theorem rebuild_chat_engine_type_error (all_docs : List Doc) (user_region : String) :
    rebuild_chat_engine all_docs user_region = EngineResult.typeError ∧
    rebuild_chat_engine all_docs user_region ≠ EngineResult.officeStop :=
  ⟨rfl, fun hcontra => EngineResult.noConfusion hcontra⟩

/-- Claim C2 counterexample: on a retrieval result of 5 passages where
passages 2 and 4 share a source file, passage 3 is boilerplate, and all
other passages are accepted, `limit = 3` yields only passages {1, 2} —
not the claimed {1, 2, 5} — because the raw passage list is truncated to
3 before filtering and deduplication. -/
theorem build_citations_limit_counterexample :
    build_citations [cex_n1, cex_n2, cex_n3, cex_n4, cex_n5] 3
      = [citation_of cex_n1, citation_of cex_n2] ∧
    build_citations [cex_n1, cex_n2, cex_n3, cex_n4, cex_n5] 3
      ≠ [citation_of cex_n1, citation_of cex_n2, citation_of cex_n5] := by
  decide

/-- Claim C2 (amended): for a retrieval result of 5 passages where
passages 2 and 4 derive the same source URL and passage 3 is blank-page
boilerplate, building citations with limit 3 yields exactly passages
{1, 2} in that order: the limit caps the raw passages examined (the
passage list is sliced to its first 3 elements before filtering and
deduplication), so passages 4 and 5 are never examined. -/
theorem build_citations_limit_truncates_raw (n1 n2 n3 n4 n5 : SourceNode)
    (h1 : text_accepted n1 = true) (h2 : text_accepted n2 = true)
    (hb : strContains (pyStrip n3.text) boilerplate = true)
    (h12 : source_url_of n1 ≠ source_url_of n2)
    (_h24 : source_url_of n2 = source_url_of n4) :
    build_citations [n1, n2, n3, n4, n5] 3 = [citation_of n1, citation_of n2] := by
  have htake : [n1, n2, n3, n4, n5].take 3 = [n1, n2, n3] := rfl
  unfold build_citations
  rw [htake]
  rw [cite_loop_accept [n2, n3] [] h1 (List.not_mem_nil _)]
  rw [cite_loop_accept [n3] _ h2
    (by intro he; exact h12 (List.mem_singleton.mp he).symm)]
  rw [cite_loop_skip_text [] _ _ (Or.inr hb)]
  rfl

/-- Claim C2 witness: the amended statement applied to the concrete
5-passage scenario. -/
theorem build_citations_limit_truncates_raw_witness :
    build_citations [cex_n1, cex_n2, cex_n3, cex_n4, cex_n5] 3
      = [citation_of cex_n1, citation_of cex_n2] :=
  build_citations_limit_truncates_raw cex_n1 cex_n2 cex_n3 cex_n4 cex_n5
    (by decide) (by decide) (by decide) (by decide) (by decide)

/-- Claim C3 counterexample: with a listing of two PDF links where the
first download fails with an HTTP error, acquisition does not continue
with the second link — nothing at all is downloaded, because the
exception is caught by the single function-level handler. -/
theorem download_failure_counterexample :
    download_pdfs acq_web_failing "010" = ⟨[], [], some "HTTP 500"⟩ ∧
    "b.pdf" ∉ (download_pdfs acq_web_failing "010").downloaded := by
  decide

/-- Claim C3 (amended): during acquisition of one series, a download
failure for a single PDF file aborts not only that file but the rest of
the listing as well: the exception propagates to the function-level
handler, so no further link is processed (here: a failure on the first
link leaves nothing downloaded).  A failure of the listing page itself
likewise aborts the whole series. -/
theorem download_failure_aborts_series (w : Web) (series_str href : String)
    (rest : List String) (e : String)
    (hl : w.listing = Except.ok (href :: rest))
    (hct : w.head_content_type
        (resolve_pdf_url w ("https://www.weather.gov/directives/" ++ series_str) href)
        = Except.ok "application/pdf")
    (hd : w.download
        (resolve_pdf_url w ("https://www.weather.gov/directives/" ++ series_str) href)
        = Except.error e) :
    download_pdfs w series_str = ⟨[], [], some e⟩ := by
  unfold download_pdfs
  rw [hl]
  simp only [acq_loop, List.isEmpty_cons, Bool.false_eq_true, if_false]
  rw [hct, hd]
  simp

/-- Claim C3 witness: the amended statement applied to the concrete
failing network oracle. -/
theorem download_failure_aborts_series_witness :
    download_pdfs acq_web_failing "010" = ⟨[], [], some "HTTP 500"⟩ :=
  download_failure_aborts_series acq_web_failing "010" "a.pdf" ["b.pdf"] "HTTP 500"
    rfl rfl rfl

/-- Claim C4 counterexample: two passages that both pass the text
filters and both lack a derivable source URL map to the same placeholder
"Unknown Source"; the deduplication step then drops the second, so a
passage with an underivable URL is not always emitted. -/
theorem unknown_source_counterexample :
    text_accepted cex_m2 = true ∧
    source_url_of cex_m2 = "Unknown Source" ∧
    build_citations [cex_m1, cex_m2] 3 = [citation_of cex_m1] ∧
    citation_of cex_m2 ∉ build_citations [cex_m1, cex_m2] 3 := by
  decide

/-- Claim C4 (amended): a passage whose source URL cannot be derived is
still emitted as a citation with the placeholder URL "Unknown Source",
provided it passes the text filters and no earlier passage of the same
response already emitted the placeholder; the dedup step treats the
placeholder like any other URL, so a second unknown-source passage is
dropped. -/
theorem unknown_source_emitted_when_fresh (node : SourceNode) (rest : List SourceNode)
    (seen acc : List String)
    (h1 : text_accepted node = true)
    (h2 : source_url_of node = "Unknown Source")
    (h3 : "Unknown Source" ∉ seen) :
    citation_of node ∈ cite_loop (node :: rest) seen acc := by
  rw [cite_loop_accept rest acc h1 (by rw [h2]; exact h3)]
  exact mem_acc_cite_loop rest _ _ _
    (List.mem_append_right _ (List.mem_singleton.mpr rfl))

/-- Claim C4 witness: the amended statement applied to a concrete
unknown-source passage at the head of the loop. -/
theorem unknown_source_emitted_when_fresh_witness :
    citation_of cex_m1 ∈ cite_loop [cex_m1, cex_m2] [] [] :=
  unknown_source_emitted_when_fresh cex_m1 [cex_m2] [] []
    (by decide) (by decide) (by decide)

/-- Claim C5: for every set of directives and every requested region,
the scope filter's output contains every directive whose scope is
"National" — national directives are never excluded, regardless of the
requested region. -/
theorem national_always_included (all_docs : List Doc) (region : String) (d : Doc)
    (hmem : d ∈ all_docs) (hnat : metaRegion d = "National") :
    d ∈ get_filtered_documents all_docs region := by
  simp only [get_filtered_documents]
  apply List.mem_append_left
  refine List.mem_filter.mpr ⟨hmem, ?_⟩
  show strContains (metaRegion d) "National" = true
  rw [hnat]
  decide

/-- Claim C5 witness: a national directive survives filtering for an
unrelated region. -/
theorem national_always_included_witness :
    demo_national ∈ get_filtered_documents [demo_national, demo_eastern] "Southern Region" :=
  national_always_included [demo_national, demo_eastern] "Southern Region" demo_national
    (by decide) (by decide)

/-- Claim C6: when the region-matching subset for the requested region
is empty, the scope filter returns exactly the national subset (so the
result is empty only when there are no national directives either) and
the non-fatal low-coverage advisory fires. -/
theorem empty_regional_uses_national_only (all_docs : List Doc) (region : String)
    (h : all_docs.filter (fun d => strContains (metaRegion d) region) = []) :
    get_filtered_documents all_docs region
      = all_docs.filter (fun d => strContains (metaRegion d) "National") ∧
    low_coverage_warning all_docs region = true := by
  constructor
  · simp only [get_filtered_documents]
    rw [h, List.append_nil]
  · simp only [low_coverage_warning]
    rw [h]
    rfl

/-- Claim C6 witness: filtering a purely national corpus for a region
with no supplementals returns the national subset and warns. -/
theorem empty_regional_uses_national_only_witness :
    get_filtered_documents [demo_national] "Southern Region"
      = [demo_national].filter (fun d => strContains (metaRegion d) "National") ∧
    low_coverage_warning [demo_national] "Southern Region" = true :=
  empty_regional_uses_national_only [demo_national] "Southern Region" (by decide)

/-- Claim C7 counterexample: a directive whose region metadata contains
both "National" and the requested region is returned twice by one filter
pass, and four times by two passes, so `filter(filter(D,R),R)` differs
from `filter(D,R)`. -/
theorem scope_filter_idempotence_counterexample :
    get_filtered_documents (get_filtered_documents [demo_overlap] "Southern Region")
        "Southern Region"
      ≠ get_filtered_documents [demo_overlap] "Southern Region" := by
  decide

/-- Claim C7 (amended): the scope filter is idempotent for every
directive sequence in which no directive's region metadata matches both
the national test and the requested region; a directive matching both is
duplicated by each pass, breaking idempotence. -/
theorem scope_filter_idempotent_of_no_overlap (all_docs : List Doc) (region : String)
    (h : ∀ d ∈ all_docs,
      ¬(strContains (metaRegion d) "National" = true
        ∧ strContains (metaRegion d) region = true)) :
    get_filtered_documents (get_filtered_documents all_docs region) region
      = get_filtered_documents all_docs region := by
  simp only [get_filtered_documents, List.filter_append]
  rw [filter_idem, filter_idem]
  rw [filter_of_disjoint (fun d => strContains (metaRegion d) "National")
    (fun d => strContains (metaRegion d) region) all_docs h]
  rw [filter_of_disjoint (fun d => strContains (metaRegion d) region)
    (fun d => strContains (metaRegion d) "National") all_docs
    (fun a ha hqp => h a ha ⟨hqp.2, hqp.1⟩)]
  simp

/-- Claim C7 witness: the amended idempotence applied to a corpus with
one national and one regional directive and no overlap. -/
theorem scope_filter_idempotent_of_no_overlap_witness :
    get_filtered_documents
        (get_filtered_documents [demo_national, demo_eastern] "Eastern Region")
        "Eastern Region"
      = get_filtered_documents [demo_national, demo_eastern] "Eastern Region" :=
  scope_filter_idempotent_of_no_overlap [demo_national, demo_eastern] "Eastern Region"
    (by decide)

/-- Claim C8: series extraction from a filename is total and
convention-based: "pd02001003curr.pdf" yields series "020"; a filename
not starting with the two-character "pd" prefix yields no series, and a
node whose file name has no parsable series keeps the "Unknown Source"
marker.  All functions involved are total, so no input can raise. -/
theorem series_extraction_conventional :
    series_match "pd02001003curr.pdf" = some "020" ∧
    (∀ file_name : String,
      pyStartsWith file_name "pd" = false → series_match file_name = none) ∧
    (∀ node : SourceNode, ∀ raw_name : String, node.file_name = some raw_name →
      series_match (basename raw_name) = none → source_url_of node = "Unknown Source") := by
  refine ⟨by decide, ?_, ?_⟩
  · intro fn hfn
    simp [series_match, hfn]
  · intro node raw_name hraw hnone
    simp [source_url_of, hraw, hnone]

/-- Claim C8 witness: the parse result on the specified filename, a
prefix-less filename, and an unknown-source node. -/
theorem series_extraction_conventional_witness :
    series_match "notapdf.pdf" = none ∧
    source_url_of cex_m2 = "Unknown Source" :=
  ⟨series_extraction_conventional.2.1 "notapdf.pdf" (by decide),
   series_extraction_conventional.2.2 cex_m2 "budget_guide.pdf" rfl (by decide)⟩

/-- Claim C9: with an empty citation list the assembler returns the
(stripped) answer text unchanged when it is non-empty; when the
generated answer text strips to empty (empty or whitespace-only), the
fixed fallback message is substituted — before any citations are
appended — and the rendered turn is never the empty string. -/
theorem assemble_response_fallback (response_gen : String) (sources : List String) :
    (response_text_of response_gen ≠ "" →
      assemble_response response_gen [] = response_text_of response_gen) ∧
    (response_text_of response_gen = "" →
      assemble_response response_gen [] = fallback_message) ∧
    (response_text_of response_gen = "" →
      assemble_response response_gen sources = append_sources fallback_message sources) ∧
    assemble_response response_gen sources ≠ "" := by
  refine ⟨?_, ?_, ?_, ?_⟩
  · intro h
    simp [assemble_response, append_sources, handle_empty_response, h]
  · intro h
    simp [assemble_response, append_sources, handle_empty_response, h]
  · intro h
    simp only [assemble_response, handle_empty_response, response_text_of] at *
    rw [h]
    simp
  · have hne : handle_empty_response (response_text_of response_gen) ≠ "" := by
      by_cases h : response_text_of response_gen = ""
      · simp only [handle_empty_response, if_pos h]
        decide
      · simp only [handle_empty_response, if_neg h]
        exact h
    by_cases hs : sources.isEmpty
    · simp only [assemble_response, append_sources, if_pos hs]
      exact hne
    · simp only [assemble_response, append_sources, if_neg hs]
      exact string_append_ne_left _ _ (string_append_ne_left _ _ hne)

/-- Claim C9 witness: a whitespace-only generation gets the fallback
before the sources block; a plain non-empty generation is returned
unchanged. -/
theorem assemble_response_fallback_witness :
    assemble_response "   " ["- [excerpt...](Unknown Source)"]
      = append_sources fallback_message ["- [excerpt...](Unknown Source)"] ∧
    assemble_response "An answer." [] = response_text_of "An answer." :=
  ⟨(assemble_response_fallback "   " ["- [excerpt...](Unknown Source)"]).2.2.1 (by decide),
   (assemble_response_fallback "An answer." []).1 (by decide)⟩

/-- Claim C10: the conversation log is append-only within a session:
every completed user turn appends exactly one user message followed by
exactly one assistant message, and every previously stored message is
preserved unchanged in place (the new log is the old log plus the two
new entries). -/
theorem conversation_log_append_only (messages : List Message)
    (prompt response_text : String) :
    complete_turn messages prompt response_text
      = messages ++ [⟨"user", prompt⟩, ⟨"assistant", response_text⟩] := by
  simp only [complete_turn, append_user_message, append_assistant_message]
  rw [getLastD_concat]
  have hrole : ({ role := "user", content := prompt } : Message).role ≠ "assistant" :=
    fun hc => absurd hc (by decide : ¬("user" : String) = "assistant")
  rw [if_pos hrole]
  rw [List.append_assoc]
  rfl
